import Mathlib

/-!
Shallow embedding of the spatial interaction core of the robot-layout
application: the scene store (sceneStore.js) and the pointer drag surface
(DragPlane.jsx), together with the numeric helpers they use
(snapToGrid from deploymentUtils.js, JavaScript remainder and rounding).

Numbers are modelled as rationals.  JavaScript's `%` operator (remainder
with the sign of the dividend) is `jsMod`; `Math.round(v * 100) / 100`
is `round2`; `Math.round` is `Int.round` on rationals, which rounds
half-way cases toward positive infinity exactly as JavaScript does.
Trigonometry (`Math.cos`, `Math.sin`, `Math.atan2` composed with the
degree-to-radian conversion the store performs) is abstracted as a `Trig`
record of rational-valued functions; `rightAngleTrig` instantiates it
exactly on multiples of 90 degrees for concrete evaluations.
-/

namespace RobotLayout

attribute [local semireducible] Rat.mul Rat.add Rat.sub Rat.inv

/-- Truncation toward zero, as JavaScript division underlying `%` does
(the numerator sign test and `Rat.floor` keep the definition executable
by the kernel; for negative arguments `-⌊-q⌋` is the ceiling). -/
def jsTrunc (q : ℚ) : ℤ :=
  if q.num < 0 then -((-q).floor) else q.floor

/-- JavaScript's remainder operator `a % b`: sign follows the dividend. -/
def jsMod (a b : ℚ) : ℚ :=
  a - b * (jsTrunc (a / b) : ℚ)

/-- The `((x % 360) + 360) % 360` normalisation idiom used by the store. -/
def normDeg (x : ℚ) : ℚ :=
  jsMod (jsMod x 360 + 360) 360

/-- `Math.round`: round half toward positive infinity, `⌊q + 1/2⌋`. -/
def ratRound (q : ℚ) : ℤ :=
  (q + 1 / 2).floor

/-- `Math.round(q * 100) / 100`: rounding to two decimal places. -/
def round2 (q : ℚ) : ℚ :=
  ((ratRound (q * 100) : ℤ) : ℚ) / 100

/-- `snapToGrid` from deploymentUtils.js:
`[Math.round(x / gridSize) * gridSize, Math.round(y / gridSize) * gridSize]`. -/
def snapToGrid (x y gridSize : ℚ) : ℚ × ℚ :=
  (((ratRound (x / gridSize) : ℤ) : ℚ) * gridSize,
   ((ratRound (y / gridSize) : ℤ) : ℚ) * gridSize)

/-! ## Data model (sceneStore.js record shapes) -/

/-- Spec floor coordinates `[x, y, z]`: x left-right, y forward-back,
z height above floor. -/
structure Vec3 where
  x : ℚ
  y : ℚ
  z : ℚ
deriving DecidableEq

/-- A robot's local offset from its parent object:
`parentOffset = { dx, dy, dRot }`. -/
structure Offset where
  dx : ℚ
  dy : ℚ
  dRot : ℚ
deriving DecidableEq

/-- A deployed robot instance, with the Phase 7 binding fields. -/
structure Robot where
  id : String
  manufacturer : String
  model : String
  label : String
  position : Vec3
  rotation : ℚ
  mountType : String
  gripperId : Option String
  gripperScale : ℚ
  colorOverride : Option String
  opacity : ℚ
  parentObjectId : Option String
  parentOffset : Option Offset
  trackPosition : Option ℚ
deriving DecidableEq

/-- A placed scene object instance.  `dimensions` is the per-instance
dimension map (string keys to numbers). -/
structure SceneObject where
  id : String
  category : String
  name : String
  shape : String
  dimensions : List (String × ℚ)
  color : String
  opacity : ℚ
  position : Vec3
  rotation : ℚ
  mountType : String
  label : String
deriving DecidableEq

/-- One entry of `robotJointMeta[robotId]`. -/
structure Joint where
  name : String
  jointType : String
  lower : ℚ
  upper : ℚ
deriving DecidableEq

/-- The slice of the Zustand store that the mutation operations under
verification read or write. -/
structure SceneState where
  deployedRobots : List Robot
  nextRobotId : Nat
  robotJointMeta : List (String × List Joint)
  robotJointAngles : List (String × List (String × ℚ))
  interactionMode : String
  selectedRobotId : Option String
  snapToGridEnabled : Bool
  sceneObjects : List SceneObject
  nextObjectId : Nat
  selectedObjectId : Option String
  showLabels : Bool
  isOrthographic : Bool
deriving DecidableEq

/-- The store's initial values from `create((set) => ({ ... }))`. -/
def initialState : SceneState :=
  { deployedRobots := []
    nextRobotId := 1
    robotJointMeta := []
    robotJointAngles := []
    interactionMode := "orbit"
    selectedRobotId := none
    snapToGridEnabled := false
    sceneObjects := []
    nextObjectId := 1
    selectedObjectId := none
    showLabels := false
    isOrthographic := false }

/-- Abstraction of the trigonometric primitives the store composes with
its degree-to-radian conversion: `cosDeg θ` stands for
`Math.cos(θ * Math.PI / 180)`, `sinDeg` likewise, and `atan2Deg dx dz`
stands for `Math.atan2(dx, dz) * 180 / Math.PI`. -/
structure Trig where
  cosDeg : ℚ → ℚ
  sinDeg : ℚ → ℚ
  atan2Deg : ℚ → ℚ → ℚ

/-- Exact cosine on degrees, defined on multiples of 90 (zero elsewhere);
used only to evaluate the model at right angles. -/
def cosDeg90 (q : ℚ) : ℚ :=
  let m := normDeg q
  if m = 0 then 1
  else if m = 90 then 0
  else if m = 180 then -1
  else if m = 270 then 0
  else 0

/-- Exact sine on degrees, defined on multiples of 90 (zero elsewhere). -/
def sinDeg90 (q : ℚ) : ℚ :=
  let m := normDeg q
  if m = 0 then 0
  else if m = 90 then 1
  else if m = 180 then 0
  else if m = 270 then -1
  else 0

/-- A concrete trig model exact on multiples of 90 degrees, for witnesses. -/
def rightAngleTrig : Trig :=
  { cosDeg := cosDeg90
    sinDeg := sinDeg90
    atan2Deg := fun _ _ => 0 }

/-! ## Store operations — robots -/

/-- `addRobots`: appends new robot instances and advances the id counter. -/
def addRobots (s : SceneState) (robots : List Robot) : SceneState :=
  { s with
    deployedRobots := s.deployedRobots ++ robots
    nextRobotId := s.nextRobotId + robots.length }

/-- `removeRobot`: filters the robot out, clears its selection if selected,
and drops its joint metadata and joint angles. -/
def removeRobot (s : SceneState) (id : String) : SceneState :=
  { s with
    deployedRobots := s.deployedRobots.filter (fun r => r.id != id)
    selectedRobotId :=
      if s.selectedRobotId = some id then none else s.selectedRobotId
    robotJointMeta := s.robotJointMeta.filter (fun p => p.1 != id)
    robotJointAngles := s.robotJointAngles.filter (fun p => p.1 != id) }

/-- `updateRobotTransform`: stores the given position and rotation on the
matching robot, verbatim. -/
def updateRobotTransform (s : SceneState) (id : String) (position : Vec3)
    (rotation : ℚ) : SceneState :=
  { s with
    deployedRobots := s.deployedRobots.map (fun r =>
      if r.id == id then { r with position := position, rotation := rotation }
      else r) }

/-- The `{ colorOverride?, opacity? }` style patch of `updateRobotStyle`;
a `none` field is absent from the patch. -/
structure RobotStyle where
  colorOverride : Option (Option String)
  opacity : Option ℚ
deriving DecidableEq

/-- JavaScript `{ ...r, ...style }` for a robot style patch. -/
def applyRobotStyle (r : Robot) (style : RobotStyle) : Robot :=
  { r with
    colorOverride := style.colorOverride.getD r.colorOverride
    opacity := style.opacity.getD r.opacity }

/-- `updateRobotStyle`: merges a style patch into the matching robot. -/
def updateRobotStyle (s : SceneState) (id : String) (style : RobotStyle) :
    SceneState :=
  { s with
    deployedRobots := s.deployedRobots.map (fun r =>
      if r.id == id then applyRobotStyle r style else r) }

/-- `duplicateRobot`: clones the source robot to a fresh id, offset +1 in
x and y, with no parent binding; selects the clone. -/
def duplicateRobot (s : SceneState) (robotId : String) : SceneState :=
  match s.deployedRobots.find? (fun r => r.id == robotId) with
  | none => s
  | some source =>
    let newId := "r-" ++ toString s.nextRobotId
    let clone : Robot :=
      { source with
        id := newId
        position :=
          { x := source.position.x + 1
            y := source.position.y + 1
            z := source.position.z }
        label := source.manufacturer ++ " " ++ source.model ++ " #" ++
          toString s.nextRobotId
        parentObjectId := none
        parentOffset := none
        trackPosition := none }
    { s with
      deployedRobots := s.deployedRobots ++ [clone]
      nextRobotId := s.nextRobotId + 1
      selectedRobotId := some newId
      selectedObjectId := none }

/-- `clearRobots`: drops all robots, resets the counter, selection, mode,
and joint state. -/
def clearRobots (s : SceneState) : SceneState :=
  { s with
    deployedRobots := []
    nextRobotId := 1
    selectedRobotId := none
    interactionMode := "orbit"
    robotJointMeta := []
    robotJointAngles := [] }

/-- `setSelectedRobotId`: sets the robot selection and clears the object
selection (mutual exclusion). -/
def setSelectedRobotId (s : SceneState) (id : Option String) : SceneState :=
  { s with selectedRobotId := id, selectedObjectId := none }

/-! ## Store operations — scene objects -/

/-- The common `{ ...r, parentObjectId: null, parentOffset: null,
trackPosition: null }` detach update. -/
def clearBinding (r : Robot) : Robot :=
  { r with parentObjectId := none, parentOffset := none, trackPosition := none }

/-- `addObjects`: appends new scene object instances. -/
def addObjects (s : SceneState) (objects : List SceneObject) : SceneState :=
  { s with
    sceneObjects := s.sceneObjects ++ objects
    nextObjectId := s.nextObjectId + objects.length }

/-- `removeObject`: filters the object out, clears its selection if
selected, and unbinds any robots bound to it (keeping their placements). -/
def removeObject (s : SceneState) (id : String) : SceneState :=
  { s with
    sceneObjects := s.sceneObjects.filter (fun o => o.id != id)
    selectedObjectId :=
      if s.selectedObjectId = some id then none else s.selectedObjectId
    deployedRobots := s.deployedRobots.map (fun r =>
      if r.parentObjectId == some id then clearBinding r else r) }

/-- `updateObjectTransform`: stores the given position and rotation on the
matching object, then cascades to every robot bound to it: the robot's
absolute position is the parent position plus its local offset rotated by
the parent rotation, rounded to two decimals; its rotation is the parent
rotation plus `dRot`, normalised by `((v % 360) + 360) % 360`. -/
def updateObjectTransform (t : Trig) (s : SceneState) (id : String)
    (position : Vec3) (rotation : ℚ) : SceneState :=
  let newObjects := s.sceneObjects.map (fun o =>
    if o.id == id then { o with position := position, rotation := rotation }
    else o)
  let cosR := t.cosDeg rotation
  let sinR := t.sinDeg rotation
  let newRobots := s.deployedRobots.map (fun r =>
    if r.parentObjectId == some id then
      match r.parentOffset with
      | some off =>
        { r with
          position :=
            { x := round2 (position.x + off.dx * cosR - off.dy * sinR)
              y := round2 (position.y + off.dx * sinR + off.dy * cosR)
              z := r.position.z }
          rotation := normDeg (rotation + off.dRot) }
      | none => r
    else r)
  { s with sceneObjects := newObjects, deployedRobots := newRobots }

/-- JavaScript `{ ...o.dimensions, ...dimensions }`: keys of the patch
override the existing map, new keys are appended. -/
def mergeDims (old patch : List (String × ℚ)) : List (String × ℚ) :=
  old.map (fun p =>
    match List.lookup p.1 patch with
    | some v => (p.1, v)
    | none => p) ++
  patch.filter (fun q => (List.lookup q.1 old).isNone)

/-- `updateObjectDimensions`: merges a dimension patch into the matching
object's dimension map. -/
def updateObjectDimensions (s : SceneState) (id : String)
    (dimensions : List (String × ℚ)) : SceneState :=
  { s with
    sceneObjects := s.sceneObjects.map (fun o =>
      if o.id == id then { o with dimensions := mergeDims o.dimensions dimensions }
      else o) }

/-- The `{ color?, opacity? }` style patch of `updateObjectStyle`. -/
structure ObjectStyle where
  color : Option String
  opacity : Option ℚ
deriving DecidableEq

/-- JavaScript `{ ...o, ...style }` for an object style patch. -/
def applyObjectStyle (o : SceneObject) (style : ObjectStyle) : SceneObject :=
  { o with
    color := style.color.getD o.color
    opacity := style.opacity.getD o.opacity }

/-- `updateObjectStyle`: merges a style patch into the matching object. -/
def updateObjectStyle (s : SceneState) (id : String) (style : ObjectStyle) :
    SceneState :=
  { s with
    sceneObjects := s.sceneObjects.map (fun o =>
      if o.id == id then applyObjectStyle o style else o) }

/-- `duplicateObject`: clones the source object to a fresh id, offset +1 in
x and y, with a copied dimension map; selects the clone. -/
def duplicateObject (s : SceneState) (objectId : String) : SceneState :=
  match s.sceneObjects.find? (fun o => o.id == objectId) with
  | none => s
  | some source =>
    let newId := "o-" ++ toString s.nextObjectId
    let clone : SceneObject :=
      { source with
        id := newId
        position :=
          { x := source.position.x + 1
            y := source.position.y + 1
            z := source.position.z }
        label := source.name ++ " #" ++ toString s.nextObjectId }
    { s with
      sceneObjects := s.sceneObjects ++ [clone]
      nextObjectId := s.nextObjectId + 1
      selectedObjectId := some newId
      selectedRobotId := none }

/-- `clearObjects`: drops all objects, resets the counter and object
selection, and unbinds every bound robot (keeping its placement). -/
def clearObjects (s : SceneState) : SceneState :=
  { s with
    sceneObjects := []
    nextObjectId := 1
    selectedObjectId := none
    deployedRobots := s.deployedRobots.map (fun r =>
      match r.parentObjectId with
      | some _ => clearBinding r
      | none => r) }

/-- `setSelectedObjectId`: sets the object selection and clears the robot
selection (mutual exclusion). -/
def setSelectedObjectId (s : SceneState) (id : Option String) : SceneState :=
  { s with selectedObjectId := id, selectedRobotId := none }

/-! ## Store operations — persistence and binding -/

/-- The saved-scene payload consumed by `restoreScene`; robot records are
taken complete (the JavaScript side fills missing binding fields with
null defaults before spreading the saved record). -/
structure RestoreData where
  deployedRobots : List Robot
  sceneObjects : List SceneObject
  nextRobotId : Nat
  nextObjectId : Nat
  robotJointAngles : List (String × List (String × ℚ))
  snapToGridEnabled : Bool
  showLabels : Bool
deriving DecidableEq

/-- `restoreScene`: replaces the collections and counters from the saved
data and resets all ephemeral state (selection, mode, joint metadata,
orthographic view). -/
def restoreScene (s : SceneState) (data : RestoreData) : SceneState :=
  { s with
    deployedRobots := data.deployedRobots
    sceneObjects := data.sceneObjects
    nextRobotId := data.nextRobotId
    nextObjectId := data.nextObjectId
    robotJointAngles := data.robotJointAngles
    robotJointMeta := []
    selectedRobotId := none
    selectedObjectId := none
    interactionMode := "orbit"
    snapToGridEnabled := data.snapToGridEnabled
    showLabels := data.showLabels
    isOrthographic := false }

/-- `bindRobotToObject`: binds a robot to a scene object.  For a
`linear_track` parent the robot snaps to the track midpoint
(`trackPosition = 0.5`, zero offset), its height is set to the carriage
surface, its rotation to `object.rotation % 360`, and its mount type to
platform.  For any other parent the local offset `(dx, dy, dRot)` is
computed from the current placements by rotating the world delta by the
negated parent rotation. -/
def bindRobotToObject (t : Trig) (s : SceneState) (robotId objectId : String) :
    SceneState :=
  match s.deployedRobots.find? (fun r => r.id == robotId),
        s.sceneObjects.find? (fun o => o.id == objectId) with
  | some robot, some object =>
    if object.shape == "linear_track" then
      let trackHeight := (List.lookup "height" object.dimensions).getD (3 / 20)
      let carriageSurfaceZ := object.position.z + trackHeight + 3 / 250
      let cosR := t.cosDeg object.rotation
      let sinR := t.sinDeg object.rotation
      let worldX := object.position.x + 0 * cosR - 0 * sinR
      let worldY := object.position.y + 0 * sinR + 0 * cosR
      let worldRot := jsMod object.rotation 360
      { s with
        deployedRobots := s.deployedRobots.map (fun r =>
          if r.id == robotId then
            { r with
              parentObjectId := some objectId
              parentOffset := some { dx := 0, dy := 0, dRot := 0 }
              trackPosition := some (1 / 2)
              position :=
                { x := round2 worldX, y := round2 worldY, z := carriageSurfaceZ }
              rotation := worldRot
              mountType := "platform" }
          else r) }
    else
      let gdx := robot.position.x - object.position.x
      let gdy := robot.position.y - object.position.y
      let cosR := t.cosDeg (-object.rotation)
      let sinR := t.sinDeg (-object.rotation)
      let localDx := gdx * cosR - gdy * sinR
      let localDy := gdx * sinR + gdy * cosR
      let dRot := normDeg (robot.rotation - object.rotation)
      { s with
        deployedRobots := s.deployedRobots.map (fun r =>
          if r.id == robotId then
            { r with
              parentObjectId := some objectId
              parentOffset := some { dx := localDx, dy := localDy, dRot := dRot }
              trackPosition := none }
          else r) }
  | _, _ => s

/-- `unbindRobot`: clears the binding fields of the matching robot,
leaving its position and rotation untouched. -/
def unbindRobot (s : SceneState) (robotId : String) : SceneState :=
  { s with
    deployedRobots := s.deployedRobots.map (fun r =>
      if r.id == robotId then clearBinding r else r) }

/-- `setRobotTrackPosition`: for a robot bound to a `linear_track` parent,
stores the given fraction, replaces the offset's `dx` by
`(pos - 0.5) * trackLength`, and recomputes the world position and
rotation from the current parent placement.  The fraction is used as
given; there is no clamping. -/
def setRobotTrackPosition (t : Trig) (s : SceneState) (robotId : String)
    (pos : ℚ) : SceneState :=
  match s.deployedRobots.find? (fun r => r.id == robotId) with
  | none => s
  | some robot =>
    match robot.parentObjectId with
    | none => s
    | some parentId =>
      match s.sceneObjects.find? (fun o => o.id == parentId) with
      | none => s
      | some object =>
        if object.shape != "linear_track" then s
        else
          let trackLength := (List.lookup "length" object.dimensions).getD 5
          let localDx := (pos - 1 / 2) * trackLength
          let localDy := ((robot.parentOffset.map Offset.dy).getD 0)
          let dRot := ((robot.parentOffset.map Offset.dRot).getD 0)
          let cosR := t.cosDeg object.rotation
          let sinR := t.sinDeg object.rotation
          let worldX := object.position.x + localDx * cosR - localDy * sinR
          let worldY := object.position.y + localDx * sinR + localDy * cosR
          let worldRot := jsMod (object.rotation + dRot) 360
          { s with
            deployedRobots := s.deployedRobots.map (fun r =>
              if r.id == robotId then
                { r with
                  trackPosition := some pos
                  parentOffset :=
                    some { dx := localDx, dy := localDy, dRot := dRot }
                  position :=
                    { x := round2 worldX, y := round2 worldY, z := r.position.z }
                  rotation := worldRot }
              else r) }

/-! ## DragPlane.jsx — pointer drag controller -/

/-- The mutable refs of the drag surface: `isDragging` and the grab
offset recorded at gesture start. -/
structure DragRefs where
  isDragging : Bool
  offX : ℚ
  offY : ℚ
deriving DecidableEq

/-- A pointer event's world intersection point (`event.point`), in
render-engine axes: `x` maps to spec x, `z` to spec y, `y` is up. -/
structure WorldPoint where
  x : ℚ
  y : ℚ
  z : ℚ
deriving DecidableEq

/-- `handlePointerDown`: ignores the press unless the mode is drag or
rotate and something is selected; in drag mode records the grab offset
(entity position minus pointer point) and starts the gesture, aborting if
the selected entity is missing; in rotate mode just starts the gesture. -/
def handlePointerDown (s : SceneState) (refs : DragRefs) (p : WorldPoint) :
    DragRefs :=
  if (s.interactionMode ≠ "drag" ∧ s.interactionMode ≠ "rotate") ∨
      (s.selectedRobotId = none ∧ s.selectedObjectId = none) then refs
  else if s.interactionMode = "drag" then
    match s.selectedRobotId with
    | some rid =>
      match s.deployedRobots.find? (fun r => r.id == rid) with
      | none => refs
      | some r =>
        { isDragging := true
          offX := r.position.x - p.x
          offY := r.position.y - p.z }
    | none =>
      match s.selectedObjectId with
      | some oid =>
        match s.sceneObjects.find? (fun o => o.id == oid) with
        | none => refs
        | some o =>
          { isDragging := true
            offX := o.position.x - p.x
            offY := o.position.y - p.z }
      | none => refs
  else { refs with isDragging := true }

/-- `handlePointerMove`: while a gesture is active, resolves the selected
entity (robots first, mirroring `resolveSelected`).  In drag mode the new
x/y are the pointer point plus the grab offset, snapped to the grid when
enabled, and the transform update keeps the entity's height and rotation;
in rotate mode the position is kept and the heading is the pointer angle
snapped to 15-degree increments and normalised. -/
def handlePointerMove (t : Trig) (snapSize : ℚ) (s : SceneState)
    (refs : DragRefs) (p : WorldPoint) : SceneState :=
  if refs.isDragging = false then s
  else
    match s.selectedRobotId with
    | some rid =>
      match s.deployedRobots.find? (fun r => r.id == rid) with
      | none => s
      | some r =>
        if s.interactionMode = "drag" then
          let raw := (p.x + refs.offX, p.z + refs.offY)
          let np :=
            if s.snapToGridEnabled then snapToGrid raw.1 raw.2 snapSize else raw
          updateRobotTransform s rid
            { x := np.1, y := np.2, z := r.position.z } r.rotation
        else if s.interactionMode = "rotate" then
          let dx := p.x - r.position.x
          let dz := p.z - r.position.y
          let snapped := ((ratRound (t.atan2Deg dx dz / 15) : ℤ) : ℚ) * 15
          updateRobotTransform s rid r.position (normDeg snapped)
        else s
    | none =>
      match s.selectedObjectId with
      | some oid =>
        match s.sceneObjects.find? (fun o => o.id == oid) with
        | none => s
        | some o =>
          if s.interactionMode = "drag" then
            let raw := (p.x + refs.offX, p.z + refs.offY)
            let np :=
              if s.snapToGridEnabled then snapToGrid raw.1 raw.2 snapSize else raw
            updateObjectTransform t s oid
              { x := np.1, y := np.2, z := o.position.z } o.rotation
          else if s.interactionMode = "rotate" then
            let dx := p.x - o.position.x
            let dz := p.z - o.position.y
            let snapped := ((ratRound (t.atan2Deg dx dz / 15) : ℤ) : ℚ) * 15
            updateObjectTransform t s oid o.position (normDeg snapped)
          else s
      | none => s

/-! ## Operation sequences -/

/-- One store mutation, for reasoning about arbitrary call sequences. -/
inductive Op where
  | addRobots (robots : List Robot)
  | removeRobot (id : String)
  | updateRobotTransform (id : String) (position : Vec3) (rotation : ℚ)
  | updateRobotStyle (id : String) (style : RobotStyle)
  | duplicateRobot (id : String)
  | clearRobots
  | setSelectedRobotId (id : Option String)
  | addObjects (objects : List SceneObject)
  | removeObject (id : String)
  | updateObjectTransform (id : String) (position : Vec3) (rotation : ℚ)
  | updateObjectDimensions (id : String) (dimensions : List (String × ℚ))
  | updateObjectStyle (id : String) (style : ObjectStyle)
  | duplicateObject (id : String)
  | clearObjects
  | setSelectedObjectId (id : Option String)
  | restoreScene (data : RestoreData)
  | bindRobotToObject (robotId objectId : String)
  | unbindRobot (robotId : String)
  | setRobotTrackPosition (robotId : String) (pos : ℚ)

/-- Interprets one operation on the store. -/
def applyOp (t : Trig) (s : SceneState) : Op → SceneState
  | .addRobots robots => addRobots s robots
  | .removeRobot id => removeRobot s id
  | .updateRobotTransform id position rotation =>
      updateRobotTransform s id position rotation
  | .updateRobotStyle id style => updateRobotStyle s id style
  | .duplicateRobot id => duplicateRobot s id
  | .clearRobots => clearRobots s
  | .setSelectedRobotId id => setSelectedRobotId s id
  | .addObjects objects => addObjects s objects
  | .removeObject id => removeObject s id
  | .updateObjectTransform id position rotation =>
      updateObjectTransform t s id position rotation
  | .updateObjectDimensions id dimensions =>
      updateObjectDimensions s id dimensions
  | .updateObjectStyle id style => updateObjectStyle s id style
  | .duplicateObject id => duplicateObject s id
  | .clearObjects => clearObjects s
  | .setSelectedObjectId id => setSelectedObjectId s id
  | .restoreScene data => restoreScene s data
  | .bindRobotToObject robotId objectId => bindRobotToObject t s robotId objectId
  | .unbindRobot robotId => unbindRobot s robotId
  | .setRobotTrackPosition robotId pos => setRobotTrackPosition t s robotId pos

/-- Interprets a sequence of operations, left to right. -/
def applyOps (t : Trig) (s : SceneState) (ops : List Op) : SceneState :=
  ops.foldl (applyOp t) s

/-! ## Concrete fixtures for witnesses and counterexamples -/

/-- A minimal unbound robot at the given placement. -/
def mkRobot (id : String) (x y z rot : ℚ) : Robot :=
  { id := id
    manufacturer := "m"
    model := "mo"
    label := "l"
    position := { x := x, y := y, z := z }
    rotation := rot
    mountType := "floor"
    gripperId := none
    gripperScale := 1
    colorOverride := none
    opacity := 1
    parentObjectId := none
    parentOffset := none
    trackPosition := none }

/-- A minimal scene object of the given shape and length dimension. -/
def mkObject (id shape : String) (x y z rot len : ℚ) : SceneObject :=
  { id := id
    category := "equipment"
    name := "n"
    shape := shape
    dimensions := [("length", len), ("height", 3 / 20)]
    color := "#888888"
    opacity := 1
    position := { x := x, y := y, z := z }
    rotation := rot
    mountType := "floor"
    label := "lbl" }

/-! ## Predicates and fixture states -/

/-- At most one of the two selections is non-null. -/
def selectionExclusive (s : SceneState) : Prop :=
  s.selectedRobotId = none ∨ s.selectedObjectId = none

/-- The parent edge of the attachment forest: `parentRel s a b` holds when
some robot with id `a` carries `parentObjectId = some b`. -/
def parentRel (s : SceneState) (a b : String) : Prop :=
  ∃ r ∈ s.deployedRobots, r.id = a ∧ r.parentObjectId = some b

/-- Ids of the deployed robots. -/
def robotIds (s : SceneState) : List String :=
  s.deployedRobots.map Robot.id

/-- Ids of the placed scene objects. -/
def objectIds (s : SceneState) : List String :=
  s.sceneObjects.map SceneObject.id

/-- A box object and a robot standing 2 m to its +x side. -/
def demoBase : SceneState :=
  addRobots (addObjects initialState [mkObject "o-1" "box" 0 0 0 0 5])
    [mkRobot "r-1" 2 0 0 0]

/-- `demoBase` after binding the robot to the box: offset `(2, 0, 0)`. -/
def demoBoundState : SceneState :=
  bindRobotToObject rightAngleTrig demoBase "r-1" "o-1"

/-- The bound robot of `demoBoundState` after its parent moved to
`(1, 2)` and turned to heading −90°. -/
def c1CascadedRobot : Robot :=
  { mkRobot "r-1" 2 0 0 0 with
    parentObjectId := some "o-1"
    parentOffset := some { dx := 2, dy := 0, dRot := 0 }
    position := { x := 1, y := 0, z := 0 }
    rotation := 270 }

/-- The bound robot of `demoBoundState` after its parent moved to
`(10, 5)` with heading 90°: world position `(10, 7)`, heading 90°. -/
def c2CascadedRobot : Robot :=
  { mkRobot "r-1" 2 0 0 0 with
    parentObjectId := some "o-1"
    parentOffset := some { dx := 2, dy := 0, dRot := 0 }
    position := { x := 10, y := 7, z := 0 }
    rotation := 90 }

/-- A box object at the origin and a robot at `x = 1/3`, bound, so the
stored offset is `dx = 1/3`. -/
def thirdBoundState : SceneState :=
  bindRobotToObject rightAngleTrig
    (addRobots (addObjects initialState [mkObject "o-1" "box" 0 0 0 0 5])
      [mkRobot "r-1" (1 / 3) 0 0 0]) "r-1" "o-1"

/-- A 5 m linear track at the origin with a robot standing at `(3, 4)`. -/
def trackBase : SceneState :=
  addRobots (addObjects initialState [mkObject "o-1" "linear_track" 0 0 0 0 5])
    [mkRobot "r-1" 3 4 0 0]

/-- `trackBase` after binding the robot to the track (midpoint snap). -/
def trackBoundState : SceneState :=
  bindRobotToObject rightAngleTrig trackBase "r-1" "o-1"

/-- A saved scene holding the same id `"x"` both as a robot id and as a
scene-object id. -/
def sharedIdData : RestoreData :=
  { deployedRobots := [mkRobot "x" 1 0 0 0]
    sceneObjects := [mkObject "x" "box" 0 0 0 0 5]
    nextRobotId := 2
    nextObjectId := 2
    robotJointAngles := []
    snapToGridEnabled := false
    showLabels := false }

/-- The store after restoring `sharedIdData`: one robot and one object
share the id `"x"`. -/
def sharedIdState : SceneState :=
  restoreScene initialState sharedIdData

/-- The store after selecting the id `"ghost"`, which names no robot. -/
def ghostSelectedState : SceneState :=
  setSelectedRobotId initialState (some "ghost")

/-- `demoBoundState` put into drag mode with the robot selected. -/
def dragRobotState : SceneState :=
  { demoBoundState with
    interactionMode := "drag"
    selectedRobotId := some "r-1"
    selectedObjectId := none }

/-- The robot record held in `demoBoundState`: bound to `"o-1"` with
offset `(2, 0, 0)`. -/
def demoBoundRobot : Robot :=
  { mkRobot "r-1" 2 0 0 0 with
    parentObjectId := some "o-1"
    parentOffset := some { dx := 2, dy := 0, dRot := 0 } }

/-- Every field of a scene object except its dimension map. -/
def objSkeleton (o : SceneObject) :
    String × String × String × String × String × ℚ × Vec3 × ℚ × String ×
      String :=
  (o.id, o.category, o.name, o.shape, o.color, o.opacity, o.position,
   o.rotation, o.mountType, o.label)

/-- Executable check that every robot's parent reference names an
existing scene object. -/
def parentRefsValidB (s : SceneState) : Bool :=
  s.deployedRobots.all (fun r =>
    match r.parentObjectId with
    | some pid => decide (pid ∈ objectIds s)
    | none => true)

/-- Executable check that no id names both a robot and a scene object. -/
def idsDisjointB (s : SceneState) : Bool :=
  (robotIds s).all (fun a => decide (a ∉ objectIds s))

/-! ## Arithmetic facts about the JavaScript helpers -/

theorem ratFloor_eq (q : ℚ) : q.floor = ⌊q⌋ :=
  (Rat.floor_def' q).trans Rat.floor_def.symm

theorem ratRound_eq (q : ℚ) : ratRound q = round q := by
  rw [ratRound, ratFloor_eq, round_eq]

theorem jsMod_eq_floor (a b : ℚ) (h : 0 ≤ a / b) :
    jsMod a b = a - b * (⌊a / b⌋ : ℚ) := by
  unfold jsMod jsTrunc
  rw [if_neg (by simpa [not_lt, Rat.num_nonneg] using h), ratFloor_eq]

theorem jsMod_eq_ceil (a b : ℚ) (h : ¬ 0 ≤ a / b) :
    jsMod a b = a - b * (⌈a / b⌉ : ℚ) := by
  unfold jsMod jsTrunc
  rw [if_pos (by simpa [not_le, Rat.num_neg] using not_le.1 h), ratFloor_eq,
    Int.floor_neg]
  push_cast
  ring

theorem jsMod_nonneg {a b : ℚ} (hb : 0 < b) (h : 0 ≤ a / b) :
    0 ≤ jsMod a b := by
  rw [jsMod_eq_floor a b h]
  have h2 : (⌊a / b⌋ : ℚ) ≤ a / b := Int.floor_le _
  have h3 : b * (⌊a / b⌋ : ℚ) ≤ b * (a / b) :=
    mul_le_mul_of_nonneg_left h2 hb.le
  have h4 : b * (a / b) = a := by
    field_simp
  linarith

theorem jsMod_lt {a b : ℚ} (hb : 0 < b) : jsMod a b < b := by
  by_cases h : 0 ≤ a / b
  · rw [jsMod_eq_floor a b h]
    have h2 : a / b - 1 < (⌊a / b⌋ : ℚ) := Int.sub_one_lt_floor _
    have h3 : b * (a / b - 1) < b * (⌊a / b⌋ : ℚ) := by
      exact (mul_lt_mul_left hb).2 h2
    have h4 : b * (a / b) = a := by
      field_simp
    nlinarith
  · rw [jsMod_eq_ceil a b h]
    have h2 : a / b ≤ (⌈a / b⌉ : ℚ) := Int.le_ceil _
    have h3 : b * (a / b) ≤ b * (⌈a / b⌉ : ℚ) :=
      mul_le_mul_of_nonneg_left h2 hb.le
    have h4 : b * (a / b) = a := by
      field_simp
    linarith

theorem neg_lt_jsMod {a b : ℚ} (hb : 0 < b) : -b < jsMod a b := by
  by_cases h : 0 ≤ a / b
  · have := jsMod_nonneg hb h
    linarith
  · rw [jsMod_eq_ceil a b h]
    have h2 : (⌈a / b⌉ : ℚ) < a / b + 1 := Int.ceil_lt_add_one _
    have h3 : b * (⌈a / b⌉ : ℚ) < b * (a / b + 1) := by
      exact (mul_lt_mul_left hb).2 h2
    have h4 : b * (a / b) = a := by
      field_simp
    nlinarith

theorem normDeg_nonneg (x : ℚ) : 0 ≤ normDeg x := by
  unfold normDeg
  have hb : (0 : ℚ) < 360 := by norm_num
  have h1 : -(360 : ℚ) < jsMod x 360 := neg_lt_jsMod hb
  have h2 : 0 ≤ (jsMod x 360 + 360) / 360 := by
    apply div_nonneg _ (by norm_num)
    linarith
  exact jsMod_nonneg hb h2

theorem normDeg_lt (x : ℚ) : normDeg x < 360 :=
  jsMod_lt (by norm_num)

/-! ## Shared list lemmas -/

theorem map_eq_self_of_mem {α : Type} (l : List α) (f : α → α)
    (h : ∀ a ∈ l, f a = a) : l.map f = l := by
  induction l with
  | nil => rfl
  | cons a l ih =>
    simp only [List.map_cons, List.cons.injEq]
    exact ⟨h a (by simp), ih (fun b hb => h b (by simp [hb]))⟩

theorem filter_eq_self_of_mem {α : Type} (l : List α) (p : α → Bool)
    (h : ∀ a ∈ l, p a = true) : l.filter p = l := by
  induction l with
  | nil => rfl
  | cons a l ih =>
    rw [List.filter_cons, if_pos (h a (by simp)), ih (fun b hb => h b (by simp [hb]))]

theorem map_congr_of_mem {α β : Type} {l : List α} {f g : α → β}
    (h : ∀ a ∈ l, f a = g a) : l.map f = l.map g := by
  induction l with
  | nil => rfl
  | cons a l ih =>
    simp only [List.map_cons, List.cons.injEq]
    exact ⟨h a (by simp), ih (fun b hb => h b (by simp [hb]))⟩

theorem find?_eq_none_of_mem {α : Type} (l : List α) (p : α → Bool)
    (h : ∀ a ∈ l, p a = false) : l.find? p = none := by
  induction l with
  | nil => rfl
  | cons a l ih =>
    rw [List.find?_cons]
    rw [h a (by simp)]
    exact ih (fun b hb => h b (by simp [hb]))

/-! ## C5 — selection mutual exclusion -/

theorem applyOp_selectionExclusive (t : Trig) (s : SceneState) (op : Op)
    (h : selectionExclusive s) : selectionExclusive (applyOp t s op) := by
  cases op with
  | addRobots robots =>
    simpa [applyOp, addRobots, selectionExclusive] using h
  | removeRobot id =>
    rcases h with h | h
    · left
      simp [applyOp, removeRobot, h]
    · right
      simpa [applyOp, removeRobot] using h
  | updateRobotTransform id position rotation =>
    simpa [applyOp, updateRobotTransform, selectionExclusive] using h
  | updateRobotStyle id style =>
    simpa [applyOp, updateRobotStyle, selectionExclusive] using h
  | duplicateRobot id =>
    cases hf : s.deployedRobots.find? (fun r => r.id == id) with
    | none => simpa [applyOp, duplicateRobot, hf, selectionExclusive] using h
    | some source => right; simp [applyOp, duplicateRobot, hf]
  | clearRobots =>
    left; simp [applyOp, clearRobots]
  | setSelectedRobotId id =>
    right; simp [applyOp, setSelectedRobotId]
  | addObjects objects =>
    simpa [applyOp, addObjects, selectionExclusive] using h
  | removeObject id =>
    rcases h with h | h
    · left
      simpa [applyOp, removeObject] using h
    · right
      simp [applyOp, removeObject, h]
  | updateObjectTransform id position rotation =>
    simpa [applyOp, updateObjectTransform, selectionExclusive] using h
  | updateObjectDimensions id dimensions =>
    simpa [applyOp, updateObjectDimensions, selectionExclusive] using h
  | updateObjectStyle id style =>
    simpa [applyOp, updateObjectStyle, selectionExclusive] using h
  | duplicateObject id =>
    cases hf : s.sceneObjects.find? (fun o => o.id == id) with
    | none => simpa [applyOp, duplicateObject, hf, selectionExclusive] using h
    | some source => left; simp [applyOp, duplicateObject, hf]
  | clearObjects =>
    right; simp [applyOp, clearObjects]
  | setSelectedObjectId id =>
    left; simp [applyOp, setSelectedObjectId]
  | restoreScene data =>
    left; simp [applyOp, restoreScene]
  | bindRobotToObject robotId objectId =>
    cases hf1 : s.deployedRobots.find? (fun r => r.id == robotId) with
    | none =>
      cases hf2 : s.sceneObjects.find? (fun o => o.id == objectId) with
      | none => simpa [applyOp, bindRobotToObject, hf1, hf2] using h
      | some o => simpa [applyOp, bindRobotToObject, hf1, hf2] using h
    | some r =>
      cases hf2 : s.sceneObjects.find? (fun o => o.id == objectId) with
      | none => simpa [applyOp, bindRobotToObject, hf1, hf2] using h
      | some o =>
        by_cases hs : o.shape == "linear_track"
        · simpa [applyOp, bindRobotToObject, hf1, hf2, hs,
            selectionExclusive] using h
        · simpa [applyOp, bindRobotToObject, hf1, hf2, hs,
            selectionExclusive] using h
  | unbindRobot robotId =>
    simpa [applyOp, unbindRobot, selectionExclusive] using h
  | setRobotTrackPosition robotId pos =>
    cases hf1 : s.deployedRobots.find? (fun r => r.id == robotId) with
    | none => simpa [applyOp, setRobotTrackPosition, hf1] using h
    | some r =>
      cases hp : r.parentObjectId with
      | none => simpa [applyOp, setRobotTrackPosition, hf1, hp] using h
      | some parentId =>
        cases hf2 : s.sceneObjects.find? (fun o => o.id == parentId) with
        | none =>
          simpa [applyOp, setRobotTrackPosition, hf1, hp, hf2] using h
        | some o =>
          by_cases hs : o.shape != "linear_track"
          · simpa [applyOp, setRobotTrackPosition, hf1, hp, hf2, hs] using h
          · simpa [applyOp, setRobotTrackPosition, hf1, hp, hf2, hs,
              selectionExclusive] using h

/-- C5: for every sequence of store operations starting from the initial
state, at most one of `selectedRobotId` and `selectedObjectId` is
non-null: setting the robot selection always nulls the object selection
and vice versa, and every other operation preserves the exclusion. -/
theorem selection_mutual_exclusion (t : Trig) (ops : List Op) :
    (applyOps t initialState ops).selectedRobotId = none ∨
    (applyOps t initialState ops).selectedObjectId = none := by
  have main : ∀ (l : List Op) (s : SceneState), selectionExclusive s →
      selectionExclusive (applyOps t s l) := by
    intro l
    induction l with
    | nil => intro s h; exact h
    | cons op rest ih =>
      intro s h
      exact ih _ (applyOp_selectionExclusive t s op h)
  exact main ops initialState (Or.inl rfl)

/-! ## Shared membership lemmas about the cascade and the track update -/

/-- The robot record produced by the `updateObjectTransform` cascade for a
robot bound to the updated object. -/
theorem updateObjectTransform_mem (t : Trig) (s : SceneState) (id : String)
    (pos : Vec3) (rot : ℚ) (r : Robot) (off : Offset)
    (hr : r ∈ s.deployedRobots) (hp : r.parentObjectId = some id)
    (ho : r.parentOffset = some off) :
    ({ r with
       position :=
         { x := round2 (pos.x + off.dx * t.cosDeg rot - off.dy * t.sinDeg rot)
           y := round2 (pos.y + off.dx * t.sinDeg rot + off.dy * t.cosDeg rot)
           z := r.position.z }
       rotation := normDeg (rot + off.dRot) } : Robot) ∈
      (updateObjectTransform t s id pos rot).deployedRobots := by
  simp only [updateObjectTransform]
  refine List.mem_map.2 ⟨r, hr, ?_⟩
  simp [hp, ho]

/-- The robot record produced by `setRobotTrackPosition` for the addressed
robot, when it is bound to a `linear_track` object. -/
theorem setRobotTrackPosition_mem (t : Trig) (s : SceneState)
    (rid oid : String) (f : ℚ) (r : Robot) (o : SceneObject)
    (hfr : s.deployedRobots.find? (fun x => x.id == rid) = some r)
    (hpid : r.parentObjectId = some oid)
    (hfo : s.sceneObjects.find? (fun x => x.id == oid) = some o)
    (hshape : o.shape = "linear_track") :
    ({ r with
       trackPosition := some f
       parentOffset := some
         { dx := (f - 1 / 2) * (List.lookup "length" o.dimensions).getD 5
           dy := (r.parentOffset.map Offset.dy).getD 0
           dRot := (r.parentOffset.map Offset.dRot).getD 0 }
       position :=
         { x := round2 (o.position.x +
             ((f - 1 / 2) * (List.lookup "length" o.dimensions).getD 5) *
               t.cosDeg o.rotation -
             (r.parentOffset.map Offset.dy).getD 0 * t.sinDeg o.rotation)
           y := round2 (o.position.y +
             ((f - 1 / 2) * (List.lookup "length" o.dimensions).getD 5) *
               t.sinDeg o.rotation +
             (r.parentOffset.map Offset.dy).getD 0 * t.cosDeg o.rotation)
           z := r.position.z }
       rotation :=
         jsMod (o.rotation + (r.parentOffset.map Offset.dRot).getD 0) 360 } :
      Robot) ∈ (setRobotTrackPosition t s rid f).deployedRobots := by
  have hr : r ∈ s.deployedRobots := List.mem_of_find?_eq_some hfr
  have hid := List.find?_some hfr
  simp only [beq_iff_eq] at hid
  unfold setRobotTrackPosition
  rw [hfr]
  dsimp only
  rw [hpid]
  dsimp only
  rw [hfo]
  dsimp only
  rw [if_neg (by simp [hshape])]
  refine List.mem_map.2 ⟨r, hr, ?_⟩
  simp [hid, hpid]

/-! ## C1 — heading normalisation -/

/-- C1 (counterexample): `updateRobotTransform` stores the rotation
argument verbatim, so after updating a robot with rotation −90 the stored
rotation is −90, outside `[0, 360)`. -/
theorem rotation_normalization_counterexample :
    ((updateRobotTransform demoBase "r-1" { x := 0, y := 0, z := 0 }
        (-90)).deployedRobots.map Robot.rotation) = [-90] ∧
    ¬ (0 ≤ (-90 : ℚ)) := by
  constructor
  · decide
  · norm_num

/-- C1 (amended): `updateRobotTransform` and `updateObjectTransform`
store the caller's rotation argument on the addressed entity verbatim,
with no normalisation; only the rotations the store computes itself are
normalised: every robot cascaded by `updateObjectTransform` ends with
rotation in `[0, 360)`. -/
theorem rotation_normalization_amended (t : Trig) (s : SceneState)
    (id : String) (pos : Vec3) (rot : ℚ) :
    (∀ r ∈ (updateRobotTransform s id pos rot).deployedRobots,
        r.id = id → r.rotation = rot) ∧
    (∀ o ∈ (updateObjectTransform t s id pos rot).sceneObjects,
        o.id = id → o.rotation = rot) ∧
    (∀ r ∈ (updateObjectTransform t s id pos rot).deployedRobots,
        r.parentObjectId = some id → r.parentOffset.isSome →
          0 ≤ r.rotation ∧ r.rotation < 360) := by
  refine ⟨?_, ?_, ?_⟩
  · intro r hr hid
    simp only [updateRobotTransform, List.mem_map] at hr
    obtain ⟨r0, _, rfl⟩ := hr
    by_cases h : r0.id == id
    · simp [h]
    · simp only [h, Bool.false_eq_true, if_false] at hid ⊢
      exact absurd hid (by simpa using h)
  · intro o ho hid
    simp only [updateObjectTransform, List.mem_map] at ho
    obtain ⟨o0, _, rfl⟩ := ho
    by_cases h : o0.id == id
    · simp [h]
    · simp only [h, Bool.false_eq_true, if_false] at hid ⊢
      exact absurd hid (by simpa using h)
  · intro r hr hparent hoffset
    simp only [updateObjectTransform, List.mem_map] at hr
    obtain ⟨r0, _, rfl⟩ := hr
    by_cases h : r0.parentObjectId == some id
    · cases hoff : r0.parentOffset with
      | none =>
        simp only [h, if_true, hoff] at hparent hoffset
        simp [hoff] at hoffset
      | some off =>
        simp only [h, if_true, hoff]
        exact ⟨normDeg_nonneg _, normDeg_lt _⟩
    · simp only [h, Bool.false_eq_true, if_false] at hparent
      exact absurd hparent (by simpa using h)

/-- C1 (witness for the amended theorem): moving the parent box of
`demoBoundState` to `(1, 2)` with heading −90° leaves the cascaded robot
with rotation 270, inside `[0, 360)`. -/
theorem rotation_normalization_amended_witness :
    0 ≤ c1CascadedRobot.rotation ∧ c1CascadedRobot.rotation < 360 :=
  (rotation_normalization_amended rightAngleTrig demoBoundState "o-1"
      { x := 1, y := 2, z := 0 } (-90)).2.2 c1CascadedRobot
    (by decide) (by decide) (by decide)

/-! ## C2 — cascade correctness -/

/-- C2 (counterexample): the cascade rounds world coordinates to two
decimals, so a child bound with offset `dx = 1/3` to a parent moved to
the origin with heading 0 ends at `x = 0.33`, not at the exact
`parent.x + dx = 1/3`. -/
theorem cascade_exact_equality_counterexample :
    ((updateObjectTransform rightAngleTrig thirdBoundState "o-1"
        { x := 0, y := 0, z := 0 } 0).deployedRobots.map
      (fun r => r.position.x)) = [33 / 100] ∧
    (33 / 100 : ℚ) ≠ 0 + 1 / 3 := by
  constructor
  · decide
  · norm_num

/-- C2 (amended): within the same `updateObjectTransform` call, every
robot bound to the updated object is recomputed as the new parent
position plus its `(dx, dy)` offset rotated by the new parent heading,
rounded to two decimal places, with heading `parent + dRot` normalised
into `[0, 360)`; its height is untouched. -/
theorem cascade_formula_correct (t : Trig) (s : SceneState) (id : String)
    (pos : Vec3) (rot : ℚ) (r : Robot) (off : Offset)
    (hr : r ∈ s.deployedRobots) (hp : r.parentObjectId = some id)
    (ho : r.parentOffset = some off) :
    ({ r with
       position :=
         { x := round2 (pos.x + off.dx * t.cosDeg rot - off.dy * t.sinDeg rot)
           y := round2 (pos.y + off.dx * t.sinDeg rot + off.dy * t.cosDeg rot)
           z := r.position.z }
       rotation := normDeg (rot + off.dRot) } : Robot) ∈
      (updateObjectTransform t s id pos rot).deployedRobots ∧
    0 ≤ normDeg (rot + off.dRot) ∧ normDeg (rot + off.dRot) < 360 :=
  ⟨updateObjectTransform_mem t s id pos rot r off hr hp ho,
   normDeg_nonneg _, normDeg_lt _⟩

/-- C2 (witness): parent at `(10, 5)` with heading 90° and offset
`(2, 0, 0)` puts the cascaded child at `(10, 7)` with heading 90°. -/
theorem cascade_formula_correct_witness :
    c2CascadedRobot ∈
      (updateObjectTransform rightAngleTrig demoBoundState "o-1"
        { x := 10, y := 5, z := 0 } 90).deployedRobots := by
  have h := (cascade_formula_correct rightAngleTrig demoBoundState "o-1"
    { x := 10, y := 5, z := 0 } 90
    { mkRobot "r-1" 2 0 0 0 with
      parentObjectId := some "o-1"
      parentOffset := some { dx := 2, dy := 0, dRot := 0 } }
    { dx := 2, dy := 0, dRot := 0 } (by decide) (by decide) (by decide)).1
  exact h

/-! ## C3 — track binding and travel -/

/-- C3: binding to a 5 m track at the origin snaps the robot to the
midpoint `(0, 0)` with `trackPosition = 0.5` and zero offset; travelling
to fraction 0 yields `(-2.5, 0)` and to fraction 1 yields `(2.5, 0)`;
and in general `setRobotTrackPosition` stores
`dx = (f - 0.5) * trackLength` in the offset and recomputes the world
position from the current parent placement. -/
theorem track_binding_and_travel :
    ((trackBoundState.deployedRobots.map fun r =>
        (r.position.x, r.position.y, r.trackPosition,
         r.parentOffset.map Offset.dx)) = [(0, 0, some (1 / 2), some 0)]) ∧
    (((setRobotTrackPosition rightAngleTrig trackBoundState
          "r-1" 0).deployedRobots.map fun r => (r.position.x, r.position.y)) =
      [(-(5 / 2), 0)]) ∧
    (((setRobotTrackPosition rightAngleTrig trackBoundState
          "r-1" 1).deployedRobots.map fun r => (r.position.x, r.position.y)) =
      [(5 / 2, 0)]) ∧
    ∀ (t : Trig) (s : SceneState) (rid oid : String) (f : ℚ) (r : Robot)
      (o : SceneObject),
      s.deployedRobots.find? (fun x => x.id == rid) = some r →
      r.parentObjectId = some oid →
      s.sceneObjects.find? (fun x => x.id == oid) = some o →
      o.shape = "linear_track" →
      ({ r with
         trackPosition := some f
         parentOffset := some
           { dx := (f - 1 / 2) * (List.lookup "length" o.dimensions).getD 5
             dy := (r.parentOffset.map Offset.dy).getD 0
             dRot := (r.parentOffset.map Offset.dRot).getD 0 }
         position :=
           { x := round2 (o.position.x +
               ((f - 1 / 2) * (List.lookup "length" o.dimensions).getD 5) *
                 t.cosDeg o.rotation -
               (r.parentOffset.map Offset.dy).getD 0 * t.sinDeg o.rotation)
             y := round2 (o.position.y +
               ((f - 1 / 2) * (List.lookup "length" o.dimensions).getD 5) *
                 t.sinDeg o.rotation +
               (r.parentOffset.map Offset.dy).getD 0 * t.cosDeg o.rotation)
             z := r.position.z }
         rotation :=
           jsMod (o.rotation + (r.parentOffset.map Offset.dRot).getD 0) 360 } :
        Robot) ∈ (setRobotTrackPosition t s rid f).deployedRobots := by
  refine ⟨by decide, by decide, by decide, ?_⟩
  intro t s rid oid f r o h1 h2 h3 h4
  exact setRobotTrackPosition_mem t s rid oid f r o h1 h2 h3 h4

/-- C3 (witness): travelling the bound robot of `trackBoundState` to
fraction 3/4 stores `dx = 5/4` and places it at `(1.25, 0)`. -/
theorem track_binding_and_travel_witness :
    ({ mkRobot "r-1" 3 4 0 0 with
        parentObjectId := some "o-1"
        parentOffset := some { dx := 5 / 4, dy := 0, dRot := 0 }
        trackPosition := some (3 / 4)
        position := { x := 5 / 4, y := 0, z := 81 / 500 }
        rotation := 0
        mountType := "platform" } : Robot) ∈
      (setRobotTrackPosition rightAngleTrig trackBoundState
        "r-1" (3 / 4)).deployedRobots := by
  have h := track_binding_and_travel.2.2.2 rightAngleTrig trackBoundState
    "r-1" "o-1" (3 / 4)
    { mkRobot "r-1" 3 4 0 0 with
      parentObjectId := some "o-1"
      parentOffset := some { dx := 0, dy := 0, dRot := 0 }
      trackPosition := some (1 / 2)
      position := { x := 0, y := 0, z := 81 / 500 }
      rotation := 0
      mountType := "platform" }
    (mkObject "o-1" "linear_track" 0 0 0 0 5)
    (by decide) (by decide) (by decide) (by decide)
  exact h

/-! ## C4 — travel fraction is not clamped -/

/-- C4 (counterexample): `setRobotTrackPosition` with the out-of-range
fraction −0.5 on a 5 m track stores `trackPosition = −0.5` and
`dx = −5` (position `x = −5`); a clamped call would store
`trackPosition = 0` and `dx = −2.5`. -/
theorem track_fraction_clamp_counterexample :
    ((setRobotTrackPosition rightAngleTrig trackBoundState
        "r-1" (-(1 / 2))).deployedRobots.map
      (fun r => (r.trackPosition, r.parentOffset.map Offset.dx,
        r.position.x))) = [(some (-(1 / 2)), some (-5), -5)] ∧
    ¬ (0 ≤ (-(1 / 2) : ℚ)) := by
  constructor
  · decide
  · norm_num

/-- C4 (amended): `setRobotTrackPosition` neither clamps nor rejects an
out-of-range fraction: for every `f` outside `[0, 1]` it stores
`trackPosition = f` and `dx = (f - 0.5) * trackLength` computed from the
raw value, and recomputes the world position from them. -/
theorem track_fraction_unclamped (t : Trig) (s : SceneState)
    (rid oid : String) (f : ℚ) (r : Robot) (o : SceneObject)
    (h1 : s.deployedRobots.find? (fun x => x.id == rid) = some r)
    (h2 : r.parentObjectId = some oid)
    (h3 : s.sceneObjects.find? (fun x => x.id == oid) = some o)
    (h4 : o.shape = "linear_track")
    (hout : f < 0 ∨ 1 < f) :
    ({ r with
       trackPosition := some f
       parentOffset := some
         { dx := (f - 1 / 2) * (List.lookup "length" o.dimensions).getD 5
           dy := (r.parentOffset.map Offset.dy).getD 0
           dRot := (r.parentOffset.map Offset.dRot).getD 0 }
       position :=
         { x := round2 (o.position.x +
             ((f - 1 / 2) * (List.lookup "length" o.dimensions).getD 5) *
               t.cosDeg o.rotation -
             (r.parentOffset.map Offset.dy).getD 0 * t.sinDeg o.rotation)
           y := round2 (o.position.y +
             ((f - 1 / 2) * (List.lookup "length" o.dimensions).getD 5) *
               t.sinDeg o.rotation +
             (r.parentOffset.map Offset.dy).getD 0 * t.cosDeg o.rotation)
           z := r.position.z }
       rotation :=
         jsMod (o.rotation + (r.parentOffset.map Offset.dRot).getD 0) 360 } :
      Robot) ∈ (setRobotTrackPosition t s rid f).deployedRobots :=
  setRobotTrackPosition_mem t s rid oid f r o h1 h2 h3 h4

/-- C4 (witness): fraction −0.5 on `trackBoundState` goes through
unclamped, storing `trackPosition = −0.5`, `dx = −5`, position `(−5, 0)`. -/
theorem track_fraction_unclamped_witness :
    ({ mkRobot "r-1" 3 4 0 0 with
        parentObjectId := some "o-1"
        parentOffset := some { dx := -5, dy := 0, dRot := 0 }
        trackPosition := some (-(1 / 2))
        position := { x := -5, y := 0, z := 81 / 500 }
        rotation := 0
        mountType := "platform" } : Robot) ∈
      (setRobotTrackPosition rightAngleTrig trackBoundState
        "r-1" (-(1 / 2))).deployedRobots := by
  have h := track_fraction_unclamped rightAngleTrig trackBoundState
    "r-1" "o-1" (-(1 / 2))
    { mkRobot "r-1" 3 4 0 0 with
      parentObjectId := some "o-1"
      parentOffset := some { dx := 0, dy := 0, dRot := 0 }
      trackPosition := some (1 / 2)
      position := { x := 0, y := 0, z := 81 / 500 }
      rotation := 0
      mountType := "platform" }
    (mkObject "o-1" "linear_track" 0 0 0 0 5)
    (by decide) (by decide) (by decide) (by decide)
    (Or.inl (by norm_num))
  exact h

/-! ## C6 — detaching keeps the placement -/

/-- C6: detaching a robot — through `unbindRobot`, or through
`removeObject` on its parent — clears `parentObjectId`, `parentOffset`
and `trackPosition` while leaving its position and rotation exactly as
last computed, and `removeObject` detaches rather than deletes: the
robot list keeps its length. -/
theorem detach_preserves_placement (s : SceneState) (rid oid : String)
    (r : Robot) (hr : r ∈ s.deployedRobots) :
    ((clearBinding r).position = r.position ∧
     (clearBinding r).rotation = r.rotation ∧
     (clearBinding r).parentObjectId = none ∧
     (clearBinding r).parentOffset = none ∧
     (clearBinding r).trackPosition = none) ∧
    (r.id = rid → clearBinding r ∈ (unbindRobot s rid).deployedRobots) ∧
    (r.parentObjectId = some oid →
      clearBinding r ∈ (removeObject s oid).deployedRobots) ∧
    (removeObject s oid).deployedRobots.length = s.deployedRobots.length := by
  refine ⟨⟨rfl, rfl, rfl, rfl, rfl⟩, ?_, ?_, ?_⟩
  · intro hid
    simp only [unbindRobot]
    refine List.mem_map.2 ⟨r, hr, ?_⟩
    simp [hid]
  · intro hb
    simp only [removeObject]
    refine List.mem_map.2 ⟨r, hr, ?_⟩
    simp [hb]
  · simp [removeObject]

/-- C6 (witness): the bound robot of `demoBoundState` survives both
`unbindRobot` and `removeObject` of its parent with cleared binding
fields and an unchanged placement. -/
theorem detach_preserves_placement_witness :
    clearBinding demoBoundRobot ∈
      (unbindRobot demoBoundState "r-1").deployedRobots ∧
    clearBinding demoBoundRobot ∈
      (removeObject demoBoundState "o-1").deployedRobots ∧
    (clearBinding demoBoundRobot).position = demoBoundRobot.position ∧
    (clearBinding demoBoundRobot).rotation = demoBoundRobot.rotation := by
  have h := detach_preserves_placement demoBoundState "r-1" "o-1"
    demoBoundRobot (by decide)
  exact ⟨h.2.1 (by decide), h.2.2.1 (by decide), h.1.1, h.1.2.1⟩

/-! ## C7 — drag preserves height and heading -/

/-- C7: a pointer-move processed in drag mode updates the selected
entity's transform with x/y equal to the pointer's world point plus the
grab offset (snapped to the grid when enabled) while passing the entity's
height and rotation through unchanged, and a pointer-down in drag mode
records the grab offset as the entity position minus the pointer point. -/
theorem drag_move_preserves_height_and_heading (t : Trig) (snapSize : ℚ)
    (s : SceneState) (refs : DragRefs) (p : WorldPoint)
    (hdrag : refs.isDragging = true) (hmode : s.interactionMode = "drag") :
    (∀ rid r, s.selectedRobotId = some rid →
      s.deployedRobots.find? (fun x => x.id == rid) = some r →
      handlePointerMove t snapSize s refs p =
        updateRobotTransform s rid
          { x := (if s.snapToGridEnabled then
                snapToGrid (p.x + refs.offX) (p.z + refs.offY) snapSize
              else (p.x + refs.offX, p.z + refs.offY)).1
            y := (if s.snapToGridEnabled then
                snapToGrid (p.x + refs.offX) (p.z + refs.offY) snapSize
              else (p.x + refs.offX, p.z + refs.offY)).2
            z := r.position.z } r.rotation) ∧
    (∀ oid o, s.selectedRobotId = none → s.selectedObjectId = some oid →
      s.sceneObjects.find? (fun x => x.id == oid) = some o →
      handlePointerMove t snapSize s refs p =
        updateObjectTransform t s oid
          { x := (if s.snapToGridEnabled then
                snapToGrid (p.x + refs.offX) (p.z + refs.offY) snapSize
              else (p.x + refs.offX, p.z + refs.offY)).1
            y := (if s.snapToGridEnabled then
                snapToGrid (p.x + refs.offX) (p.z + refs.offY) snapSize
              else (p.x + refs.offX, p.z + refs.offY)).2
            z := o.position.z } o.rotation) ∧
    (∀ (refs0 : DragRefs) (rid : String) (r : Robot),
      s.selectedRobotId = some rid →
      s.deployedRobots.find? (fun x => x.id == rid) = some r →
      (handlePointerDown s refs0 p).isDragging = true ∧
      (handlePointerDown s refs0 p).offX = r.position.x - p.x ∧
      (handlePointerDown s refs0 p).offY = r.position.y - p.z) := by
  refine ⟨?_, ?_, ?_⟩
  · intro rid r hsel hfind
    unfold handlePointerMove
    rw [if_neg (by simp [hdrag]), hsel]
    dsimp only
    rw [hfind]
    dsimp only
    rw [if_pos hmode]
  · intro oid o hselr hselo hfind
    unfold handlePointerMove
    rw [if_neg (by simp [hdrag]), hselr]
    dsimp only
    rw [hselo]
    dsimp only
    rw [hfind]
    dsimp only
    rw [if_pos hmode]
  · intro refs0 rid r hsel hfind
    unfold handlePointerDown
    rw [if_neg (by simp [hmode, hsel]), if_pos hmode, hsel]
    dsimp only
    rw [hfind]
    exact ⟨rfl, rfl, rfl⟩

/-- C7 (witness): in `dragRobotState` with grab offset `(1, 2)`, a
pointer-move to world point `(3, _, 4)` updates the selected robot to
`(4, 6)` with its height 0 and rotation 0 untouched, and a pointer-down
at that point records offset `(-1, -4)`. -/
theorem drag_move_preserves_height_and_heading_witness :
    handlePointerMove rightAngleTrig (1 / 2) dragRobotState
      { isDragging := true, offX := 1, offY := 2 }
      { x := 3, y := 0, z := 4 } =
      updateRobotTransform dragRobotState "r-1" { x := 4, y := 6, z := 0 } 0 ∧
    (handlePointerDown dragRobotState
      { isDragging := false, offX := 0, offY := 0 }
      { x := 3, y := 0, z := 4 }).offX = -1 := by
  have h := drag_move_preserves_height_and_heading rightAngleTrig (1 / 2)
    dragRobotState { isDragging := true, offX := 1, offY := 2 }
    { x := 3, y := 0, z := 4 } (by decide) (by decide)
  constructor
  · have h1 := h.1 "r-1" demoBoundRobot (by decide) (by decide)
    exact h1
  · have h3 := (h.2.2 { isDragging := false, offX := 0, offY := 0 }
      "r-1" demoBoundRobot (by decide) (by decide)).2.1
    rw [h3]
    decide

/-! ## C8 — missing ids -/

/-- C8 (counterexample): after selecting the nonexistent robot id
`"ghost"` (the store accepts any id), `removeRobot "ghost"` mutates the
store — it clears the dangling selection — even though no robot with
that id exists. -/
theorem missing_id_noop_counterexample :
    ghostSelectedState.selectedRobotId = some "ghost" ∧
    (ghostSelectedState.deployedRobots.all (fun r => r.id != "ghost")) =
      true ∧
    (removeRobot ghostSelectedState "ghost").selectedRobotId = none ∧
    removeRobot ghostSelectedState "ghost" ≠ ghostSelectedState := by
  refine ⟨rfl, rfl, rfl, ?_⟩
  decide

/-- C8 (amended): an operation addressed at an id that names no entity
in the corresponding collection leaves the whole store unchanged,
provided nothing else dangles on that id: `removeRobot` additionally
requires that the id is not the (dangling) robot selection and owns no
joint entries, and `removeObject`/`updateObjectTransform` require that no
robot is (danglingly) bound to the id and that it is not the object
selection.  Under those conditions every listed operation is an exact
no-op and none throws. -/
theorem missing_id_noop (t : Trig) (s : SceneState) (id rid oid : String)
    (pos : Vec3) (rot : ℚ) (rstyle : RobotStyle) (ostyle : ObjectStyle)
    (dims : List (String × ℚ)) (f : ℚ)
    (habs : ∀ r ∈ s.deployedRobots, r.id ≠ id)
    (hobj : ∀ o ∈ s.sceneObjects, o.id ≠ id) :
    updateRobotTransform s id pos rot = s ∧
    updateRobotStyle s id rstyle = s ∧
    duplicateRobot s id = s ∧
    unbindRobot s id = s ∧
    setRobotTrackPosition t s id f = s ∧
    updateObjectDimensions s id dims = s ∧
    updateObjectStyle s id ostyle = s ∧
    duplicateObject s id = s ∧
    bindRobotToObject t s id oid = s ∧
    bindRobotToObject t s rid id = s ∧
    (s.selectedRobotId ≠ some id →
      (∀ pm ∈ s.robotJointMeta, pm.1 ≠ id) →
      (∀ pa ∈ s.robotJointAngles, pa.1 ≠ id) →
      removeRobot s id = s) ∧
    ((∀ r ∈ s.deployedRobots, r.parentObjectId ≠ some id) →
      s.selectedObjectId ≠ some id →
      removeObject s id = s) ∧
    ((∀ r ∈ s.deployedRobots, r.parentObjectId ≠ some id) →
      updateObjectTransform t s id pos rot = s) := by
  have hfr : s.deployedRobots.find? (fun x => x.id == id) = none :=
    find?_eq_none_of_mem _ _ (fun r hrr => by simp [habs r hrr])
  have hfo : s.sceneObjects.find? (fun x => x.id == id) = none :=
    find?_eq_none_of_mem _ _ (fun o hoo => by simp [hobj o hoo])
  refine ⟨?_, ?_, ?_, ?_, ?_, ?_, ?_, ?_, ?_, ?_, ?_, ?_, ?_⟩
  · show { s with deployedRobots := _ } = s
    rw [map_eq_self_of_mem _ _ (fun r hrr => by simp [habs r hrr])]
  · show { s with deployedRobots := _ } = s
    rw [map_eq_self_of_mem _ _ (fun r hrr => by simp [habs r hrr])]
  · unfold duplicateRobot
    rw [hfr]
  · show { s with deployedRobots := _ } = s
    rw [map_eq_self_of_mem _ _ (fun r hrr => by simp [habs r hrr])]
  · unfold setRobotTrackPosition
    rw [hfr]
  · show { s with sceneObjects := _ } = s
    rw [map_eq_self_of_mem _ _ (fun o hoo => by simp [hobj o hoo])]
  · show { s with sceneObjects := _ } = s
    rw [map_eq_self_of_mem _ _ (fun o hoo => by simp [hobj o hoo])]
  · unfold duplicateObject
    rw [hfo]
  · unfold bindRobotToObject
    rw [hfr]
  · unfold bindRobotToObject
    rw [hfo]
    cases s.deployedRobots.find? (fun r => r.id == rid) <;> rfl
  · intro hsel hmeta hang
    unfold removeRobot
    rw [filter_eq_self_of_mem _ _ (fun r hrr => by simp [habs r hrr]),
      filter_eq_self_of_mem _ _ (fun pm hpm => by simp [hmeta pm hpm]),
      filter_eq_self_of_mem _ _ (fun pa hpa => by simp [hang pa hpa]),
      if_neg hsel]
  · intro hpar hsel
    unfold removeObject
    rw [filter_eq_self_of_mem _ _ (fun o hoo => by simp [hobj o hoo]),
      map_eq_self_of_mem _ _ (fun r hrr => by simp [hpar r hrr]),
      if_neg hsel]
  · intro hpar
    unfold updateObjectTransform
    dsimp only
    rw [map_eq_self_of_mem _ _ (fun r hrr => by simp [hpar r hrr]),
      map_eq_self_of_mem _ _ (fun o hoo => by simp [hobj o hoo])]

/-- C8 (witness): with the well-formed `demoBoundState`, every operation
addressed at the absent id `"ghost"` is an exact no-op. -/
theorem missing_id_noop_witness :
    removeRobot demoBoundState "ghost" = demoBoundState ∧
    removeObject demoBoundState "ghost" = demoBoundState ∧
    updateObjectTransform rightAngleTrig demoBoundState "ghost"
      { x := 1, y := 1, z := 0 } 45 = demoBoundState ∧
    updateRobotTransform demoBoundState "ghost"
      { x := 1, y := 1, z := 0 } 45 = demoBoundState ∧
    duplicateRobot demoBoundState "ghost" = demoBoundState ∧
    bindRobotToObject rightAngleTrig demoBoundState "ghost" "o-1" =
      demoBoundState := by
  have h := missing_id_noop rightAngleTrig demoBoundState "ghost" "r-1"
    "o-1" { x := 1, y := 1, z := 0 } 45
    { colorOverride := none, opacity := none }
    { color := none, opacity := none } [] 0
    (by decide) (by decide)
  exact ⟨h.2.2.2.2.2.2.2.2.2.2.1 (by decide) (by decide) (by decide),
    h.2.2.2.2.2.2.2.2.2.2.2.1 (by decide) (by decide),
    h.2.2.2.2.2.2.2.2.2.2.2.2 (by decide),
    h.1, h.2.2.1, h.2.2.2.2.2.2.2.2.1⟩

/-! ## C9 — self-binds and cycles -/

/-- C9 (counterexample): `bindRobotToObject` performs no self-bind or
cycle check.  After restoring a scene in which the id `"x"` names both a
robot and an object, `bindRobotToObject "x" "x"` commits a self-loop
(`parentObjectId = some "x"` on robot `"x"`) and changes the store
instead of rejecting the call. -/
theorem self_bind_counterexample :
    ((bindRobotToObject rightAngleTrig sharedIdState "x" "x").deployedRobots.map
      (fun r => (r.id, r.parentObjectId))) = [("x", some "x")] ∧
    bindRobotToObject rightAngleTrig sharedIdState "x" "x" ≠ sharedIdState := by
  constructor
  · decide
  · decide

/-- C9 (amended): the code contains no self-bind or cycle check; the
protection is structural.  When no id names both a robot and a scene
object (true for every store-generated `"r-"`/`"o-"` id) a same-id bind
finds no robot/object pair and is a no-op, and when additionally every
parent reference names an existing object, the parent relation is
acyclic — only robots carry parents and every parent is an object, so no
chain of length one or more returns to its start. -/
theorem bind_acyclic_amended (t : Trig) (s : SceneState) (x : String)
    (hdisj : idsDisjointB s = true)
    (hrefs : parentRefsValidB s = true) :
    bindRobotToObject t s x x = s ∧
    ∀ a, ¬ Relation.TransGen (parentRel s) a a := by
  have hdisj' : ∀ a, a ∈ robotIds s → a ∉ objectIds s := by
    intro a ha
    exact of_decide_eq_true (List.all_eq_true.1 hdisj a ha)
  have hedge : ∀ a b, parentRel s a b →
      a ∈ robotIds s ∧ b ∈ objectIds s := by
    rintro a b ⟨r, hr, hida, hpb⟩
    constructor
    · rw [← hida]
      exact List.mem_map_of_mem Robot.id hr
    · have h1 := List.all_eq_true.1 hrefs r hr
      rw [hpb] at h1
      exact of_decide_eq_true h1
  constructor
  · cases hf : s.deployedRobots.find? (fun r => r.id == x) with
    | none =>
      unfold bindRobotToObject
      rw [hf]
    | some r =>
      have hid := List.find?_some hf
      simp only [beq_iff_eq] at hid
      have hxr : x ∈ robotIds s := by
        rw [← hid]
        exact List.mem_map_of_mem Robot.id (List.mem_of_find?_eq_some hf)
      have hxo : x ∉ objectIds s := hdisj' x hxr
      have hfo : s.sceneObjects.find? (fun o => o.id == x) = none := by
        refine find?_eq_none_of_mem _ _ (fun o hoo => ?_)
        simp only [beq_eq_false_iff_ne, ne_eq]
        intro he
        exact hxo (by rw [← he]; exact List.mem_map_of_mem SceneObject.id hoo)
      unfold bindRobotToObject
      rw [hf, hfo]
  · have hlast : ∀ x y, Relation.TransGen (parentRel s) x y →
        y ∈ objectIds s := by
      intro x y h
      induction h with
      | single h1 => exact (hedge _ _ h1).2
      | tail _ h1 _ => exact (hedge _ _ h1).2
    have hfirst : ∀ x y, Relation.TransGen (parentRel s) x y →
        x ∈ robotIds s := by
      intro x y h
      induction h with
      | single h1 => exact (hedge _ _ h1).1
      | tail _ _ ih => exact ih
    intro a hcyc
    exact hdisj' a (hfirst a a hcyc) (hlast a a hcyc)

/-- C9 (witness): in the well-formed `demoBoundState` (robot `"r-1"`
bound to object `"o-1"`), a self-addressed bind on `"r-1"` is a no-op
and the parent relation has no cycle at `"r-1"`. -/
theorem bind_acyclic_amended_witness :
    bindRobotToObject rightAngleTrig demoBoundState "r-1" "r-1" =
      demoBoundState ∧
    ¬ Relation.TransGen (parentRel demoBoundState) "r-1" "r-1" := by
  have h := bind_acyclic_amended rightAngleTrig demoBoundState "r-1"
    (by decide) (by decide)
  exact ⟨h.1, h.2 "r-1"⟩

/-! ## C10 — dimension updates do not cascade -/

/-- C10: `updateObjectDimensions` changes only the addressed object's
dimension map: the robot list is untouched (no cascade, so a bound
robot's `trackPosition`, `parentOffset`, position and rotation are all
unchanged), every other field of every object is kept, and objects with
a different id are kept whole. -/
theorem dimensions_update_frame (s : SceneState) (id : String)
    (dims : List (String × ℚ)) :
    (updateObjectDimensions s id dims).deployedRobots = s.deployedRobots ∧
    ((updateObjectDimensions s id dims).sceneObjects.map objSkeleton) =
      s.sceneObjects.map objSkeleton ∧
    (∀ o ∈ s.sceneObjects, o.id ≠ id →
      o ∈ (updateObjectDimensions s id dims).sceneObjects) ∧
    (updateObjectDimensions s id dims).selectedRobotId = s.selectedRobotId ∧
    (updateObjectDimensions s id dims).selectedObjectId =
      s.selectedObjectId := by
  refine ⟨rfl, ?_, ?_, rfl, rfl⟩
  · simp only [updateObjectDimensions, List.map_map]
    apply map_congr_of_mem
    intro o _
    simp only [Function.comp_apply]
    split <;> simp [objSkeleton]
  · intro o ho hne
    simp only [updateObjectDimensions]
    refine List.mem_map.2 ⟨o, ho, ?_⟩
    simp [hne]

/-- C10 (witness): after travelling the track robot to fraction 0.8
(`dx = 1.5` on the 5 m track), doubling the track length to 10 leaves
the robot list untouched, and the stale `dx = 1.5` no longer equals
`(0.8 - 0.5) * 10 = 3`. -/
theorem dimensions_update_frame_witness :
    (updateObjectDimensions
        (setRobotTrackPosition rightAngleTrig trackBoundState "r-1" (4 / 5))
        "o-1" [("length", 10)]).deployedRobots =
      (setRobotTrackPosition rightAngleTrig trackBoundState
        "r-1" (4 / 5)).deployedRobots ∧
    ((setRobotTrackPosition rightAngleTrig trackBoundState
        "r-1" (4 / 5)).deployedRobots.map
      (fun r => r.parentOffset.map Offset.dx)) = [some (3 / 2)] ∧
    (3 / 2 : ℚ) ≠ (4 / 5 - 1 / 2) * 10 := by
  refine ⟨(dimensions_update_frame
    (setRobotTrackPosition rightAngleTrig trackBoundState "r-1" (4 / 5))
    "o-1" [("length", 10)]).1, by decide, by norm_num⟩

end RobotLayout
